import Mathlib

/-!
Verification of the `SoundSystem` playback-channel pool and request-queue
scheduler (`src/sound_system.cpp`, `src/sound_system.hpp`).

The audio backend (`openal_utils`) and the sound-file decoder are not part of
the repository sources; they are modelled from the spec's backend capability
surface (spec section 6).  Everything else is a shallow embedding of the C++
in `src/sound_system.cpp`: `SoundType` is modelled as an arbitrary natural
number, `ALuint` handles as naturals, `glm::vec3` positions and `float` gains
as rational triples / rationals (they are only stored and compared, never
computed with), and the C++ maps as association lists.
-/

/-- Modelled from the spec: the backend channel states returned by
`get_channel_state(handle) -> Initial | Playing | Paused | Stopped`
(spec section 6); these are OpenAL's `AL_INITIAL`, `AL_PLAYING`,
`AL_PAUSED`, `AL_STOPPED`. -/
inductive ChannelState where
  | initial
  | playing
  | paused
  | stopped
deriving DecidableEq, Repr

/-- A 3D position (`glm::vec3`); stored and passed through only, so the
components are modelled as rationals. -/
structure Vec3 where
  x : ℚ
  y : ℚ
  z : ℚ
deriving DecidableEq, Repr

/-- Modelled from the spec: the per-channel backend state that the spec's
capability surface exposes — playback state, bound buffer (0 when unbound),
position, gain, and the looping flag (spec section 6). -/
structure Channel where
  state : ChannelState
  buffer : ℕ
  position : Vec3
  gain : ℚ
  looping : Bool
deriving DecidableEq, Repr

/-- Modelled from the spec: `create_channel()` yields a channel in the
`Initial` state with no bound buffer, origin position, unit gain and the
looping flag off (the OpenAL source defaults). -/
def freshChannel : Channel :=
  { state := .initial, buffer := 0, position := ⟨0, 0, 0⟩, gain := 1, looping := false }

/-- The backend's channel store: every handle value maps to a channel
record.  The pool only ever touches the handles it was given. -/
def Backend : Type := ℕ → Channel

/-- Update one channel of the backend store. -/
def Backend.update (b : Backend) (sid : ℕ) (f : Channel → Channel) : Backend :=
  fun i => if i = sid then f (b i) else b i

/-- Modelled from the spec: `set_channel_looping(channel, bool)`
(`openal_utils::set_source_looping`). -/
def set_source_looping (b : Backend) (sid : ℕ) (v : Bool) : Backend :=
  b.update sid (fun c => { c with looping := v })

/-- Modelled from the spec: `bind_buffer(channel, buffer)`
(`openal_utils::set_source_buffer`). -/
def set_source_buffer (b : Backend) (sid : ℕ) (buf : ℕ) : Backend :=
  b.update sid (fun c => { c with buffer := buf })

/-- Modelled from the spec: `detach_buffer(channel)`
(`openal_utils::detach_source_buffer`) — the channel becomes unbound. -/
def detach_source_buffer (b : Backend) (sid : ℕ) : Backend :=
  b.update sid (fun c => { c with buffer := 0 })

/-- Modelled from the spec: `set_channel_position(channel, vec3)`
(`openal_utils::set_source_position`). -/
def set_source_position (b : Backend) (sid : ℕ) (p : Vec3) : Backend :=
  b.update sid (fun c => { c with position := p })

/-- Modelled from the spec: `set_channel_gain(channel, float)`
(`openal_utils::set_source_gain`). -/
def set_source_gain (b : Backend) (sid : ℕ) (g : ℚ) : Backend :=
  b.update sid (fun c => { c with gain := g })

/-- Modelled from the spec: `play(channel)` (`openal_utils::play_source`)
puts the channel in the `Playing` state. -/
def play_source (b : Backend) (sid : ℕ) : Backend :=
  b.update sid (fun c => { c with state := .playing })

/-- Modelled from the spec: `stop(channel)` (`openal_utils::stop_source`)
puts the channel in the `Stopped` state. -/
def stop_source (b : Backend) (sid : ℕ) : Backend :=
  b.update sid (fun c => { c with state := .stopped })

/-- Modelled from the spec: `get_channel_state(handle)`
(`openal_utils::get_source_state`). -/
def get_source_state (b : Backend) (sid : ℕ) : ChannelState :=
  (b sid).state

/-- Association-list lookup, the embedding of `map.count(k) == 1` /
`map.find(k)` on the C++ `std::map` / `std::unordered_map` members. -/
def lookupKey {α β : Type} [DecidableEq α] (k : α) : List (α × β) → Option β
  | [] => none
  | (a, v) :: rest => if a = k then some v else lookupKey k rest

/-- C++ `std::unordered_map::operator[]` as used in
`sound_type_to_buffer_id[type]`: returns the mapped value, and if the key is
absent it default-inserts the value 0 and returns 0. -/
def getOrInsertZero (m : List (ℕ × ℕ)) (k : ℕ) : ℕ × List (ℕ × ℕ) :=
  match lookupKey k m with
  | some v => (v, m)
  | none => (0, m ++ [(k, 0)])

/-- The `QueuedSound` struct as constructed by `queue_sound` in
`sound_system.cpp` (`{type, position, gain}`). -/
structure QueuedSound where
  type : ℕ
  position : Vec3
  gain : ℚ
deriving DecidableEq, Repr

/-- The `SoundSystem` object state: the two name-keyed registries, the pool
of sources, the type-keyed buffer registry, the playback queue, and the
backend channel store that the member functions mutate through
`openal_utils`. -/
structure SoundSystem where
  sound_name_to_loaded_buffer_id : List (String × ℕ)
  source_name_to_source_id : List (String × ℕ)
  sound_sources : List ℕ
  sound_type_to_buffer_id : List (ℕ × ℕ)
  sound_to_play_queue : List QueuedSound
  backend : Backend

/-- Recoverable failures of the member functions; the C++ signals them with
`throw std::runtime_error(...)` (and the gain precondition with `assert`),
named here after the spec's error taxonomy (spec section 7). -/
inductive SoundError where
  | duplicateIdentifier
  | decodeFailure
  | unknownSound
  | unknownSource
  | gainOutOfRange
deriving DecidableEq, Repr

/-- `SoundSystem::get_available_source_id`: scan `sound_sources` in order and
return the first source whose backend state is not `AL_PLAYING`; return 0
when none is available. -/
def get_available_source_id (b : Backend) : List ℕ → ℕ
  | [] => 0
  | s :: rest =>
      if get_source_state b s ≠ .playing then s else get_available_source_id b rest

/-- `SoundSystem::queue_sound(type, position, gain)`: push
`{type, position, gain}` onto `sound_to_play_queue`. -/
def SoundSystem.queue_sound (sys : SoundSystem) (type : ℕ) (position : Vec3) (gain : ℚ) :
    SoundSystem :=
  { sys with sound_to_play_queue := sys.sound_to_play_queue ++ [⟨type, position, gain⟩] }

/-- `SoundSystem::queue_looping_sound(type, position, gain)`: acquire a free
pool source; if one exists (id not 0), look the buffer up with
`sound_type_to_buffer_id[type]` (default-inserting), set looping, bind the
buffer, set position and gain, start playback, and return the source id;
otherwise return the literal 999 (the `std::cout` diagnostic after the
`return` statement is unreachable). -/
def SoundSystem.queue_looping_sound (sys : SoundSystem) (type : ℕ) (position : Vec3)
    (gain : ℚ) : ℕ × SoundSystem :=
  let source_id := get_available_source_id sys.backend sys.sound_sources
  if source_id ≠ 0 then
    let r := getOrInsertZero sys.sound_type_to_buffer_id type
    let b := set_source_looping sys.backend source_id true
    let b := set_source_buffer b source_id r.1
    let b := set_source_position b source_id position
    let b := set_source_gain b source_id gain
    let b := play_source b source_id
    (source_id, { sys with sound_type_to_buffer_id := r.2, backend := b })
  else
    (999, sys)

/-- `SoundSystem::stop_looping_sound(source_id)`: clear the looping flag;
if the channel is `AL_PLAYING` or `AL_PAUSED`, stop it (otherwise only a
warning is printed); finally detach the bound buffer. -/
def SoundSystem.stop_looping_sound (sys : SoundSystem) (source_id : ℕ) : SoundSystem :=
  let b := set_source_looping sys.backend source_id false
  let state := get_source_state b source_id
  let b := if state = .playing ∨ state = .paused then stop_source b source_id else b
  let b := detach_source_buffer b source_id
  { sys with backend := b }

/-- The `while (!sound_to_play_queue.empty())` loop of
`SoundSystem::play_all_sounds`, with the backend store, the type registry
and the remaining queue threaded explicitly; additionally returns the list
of source ids on which a play command was issued, in order. -/
def play_all_sounds_loop (sources : List ℕ) :
    Backend → List (ℕ × ℕ) → List QueuedSound → Backend × List (ℕ × ℕ) × List ℕ
  | b, m, [] => (b, m, [])
  | b, m, q :: rest =>
      let source := get_available_source_id b sources
      if source ≠ 0 then
        let r := getOrInsertZero m q.type
        let b := set_source_buffer b source r.1
        let b := set_source_position b source q.position
        let b := set_source_gain b source q.gain
        let b := play_source b source
        let rec_result := play_all_sounds_loop sources b r.2 rest
        (rec_result.1, rec_result.2.1, source :: rec_result.2.2)
      else
        play_all_sounds_loop sources b m rest

/-- `SoundSystem::play_all_sounds()`: drain the queue, binding each request
to an available pool source and starting it, dropping requests (with a
diagnostic) when no source is free.  Returns the updated system and the list
of source ids actually started. -/
def SoundSystem.play_all_sounds (sys : SoundSystem) : SoundSystem × List ℕ :=
  let r := play_all_sounds_loop sys.sound_sources sys.backend
    sys.sound_type_to_buffer_id sys.sound_to_play_queue
  ({ sys with backend := r.1, sound_type_to_buffer_id := r.2.1, sound_to_play_queue := [] },
    r.2.2)

/-- `SoundSystem::load_sound_into_system_for_playback(sound_name, filename)`:
fail with `DuplicateIdentifier` if the name is already registered; decode the
file (the decoder `load_sound_and_generate_openal_buffer` is a parameter,
modelled from the spec as `decode_and_upload(path) -> BufferHandle`, 0 on
failure); fail with `DecodeFailure` on a null buffer; otherwise register the
buffer under the name.  The returned system is the object state when the
call returns or throws. -/
def SoundSystem.load_sound_into_system_for_playback (sys : SoundSystem)
    (decoder : String → ℕ) (sound_name : String) (filename : String) :
    SoundSystem × Option SoundError :=
  if (lookupKey sound_name sys.sound_name_to_loaded_buffer_id).isSome then
    (sys, some .duplicateIdentifier)
  else
    let sound_buffer := decoder filename
    if sound_buffer = 0 then
      (sys, some .decodeFailure)
    else
      ({ sys with sound_name_to_loaded_buffer_id :=
          sys.sound_name_to_loaded_buffer_id ++ [(sound_name, sound_buffer)] }, none)

/-- `SoundSystem::play_sound(source_name, sound_name)` (the deprecated
named-source path): throw if the sound name is unregistered, then if the
source name is unregistered; print a diagnostic and return when the
registered buffer id is 0; otherwise stop the source if it is currently
playing, bind the buffer and play. -/
def SoundSystem.play_sound (sys : SoundSystem) (source_name : String)
    (sound_name : String) : SoundSystem × Option SoundError :=
  match lookupKey sound_name sys.sound_name_to_loaded_buffer_id with
  | none => (sys, some .unknownSound)
  | some loaded_sound_buffer_id =>
    match lookupKey source_name sys.source_name_to_source_id with
    | none => (sys, some .unknownSource)
    | some source_id =>
      if loaded_sound_buffer_id = 0 then
        (sys, none)
      else
        let b := if get_source_state sys.backend source_id = .playing
                 then stop_source sys.backend source_id else sys.backend
        let b := set_source_buffer b source_id loaded_sound_buffer_id
        let b := play_source b source_id
        ({ sys with backend := b }, none)

/-- `SoundSystem::set_source_gain_by_name(source_name, gain)`: the
`assert(0 <= gain && gain <= 1)` rejects an out-of-range gain (modelled as
the `gainOutOfRange` error); then throw if the source name is unregistered;
otherwise set the source gain. -/
def SoundSystem.set_source_gain_by_name (sys : SoundSystem) (source_name : String)
    (gain : ℚ) : SoundSystem × Option SoundError :=
  if ¬ (0 ≤ gain ∧ gain ≤ 1) then
    (sys, some .gainOutOfRange)
  else
    match lookupKey source_name sys.source_name_to_source_id with
    | none => (sys, some .unknownSource)
    | some source_id =>
        ({ sys with backend := set_source_gain sys.backend source_id gain }, none)

/-- A backend store in which every channel is freshly created (idle). -/
def idleBackend : Backend := fun _ => freshChannel

/-- A concrete system whose single pool source (id 1) is busy playing. -/
def sysAllPlaying : SoundSystem :=
  { sound_name_to_loaded_buffer_id := []
    source_name_to_source_id := []
    sound_sources := [1]
    sound_type_to_buffer_id := [(5, 7)]
    sound_to_play_queue := []
    backend := fun _ => { freshChannel with state := .playing } }

/-- A concrete system with one named source and one registered named sound. -/
def sysNamed : SoundSystem :=
  { sound_name_to_loaded_buffer_id := [("soundA", 3)]
    source_name_to_source_id := [("s1", 1)]
    sound_sources := []
    sound_type_to_buffer_id := []
    sound_to_play_queue := []
    backend := idleBackend }

/-- A concrete system with one free pool source (id 1) and one registered
sound type (5, buffer 7). -/
def sysLoop : SoundSystem :=
  { sound_name_to_loaded_buffer_id := []
    source_name_to_source_id := []
    sound_sources := [1]
    sound_type_to_buffer_id := [(5, 7)]
    sound_to_play_queue := []
    backend := idleBackend }

/-- A concrete system with pool size 1 and two distinct queued requests. -/
def sysPool1 : SoundSystem :=
  { sound_name_to_loaded_buffer_id := []
    source_name_to_source_id := []
    sound_sources := [1]
    sound_type_to_buffer_id := [(5, 7), (6, 8)]
    sound_to_play_queue := [⟨5, ⟨1, 0, 0⟩, 1⟩, ⟨6, ⟨0, 1, 0⟩, 1⟩]
    backend := idleBackend }

/-! ### Helper lemmas about the backend operations -/

theorem Backend.update_self (b : Backend) (sid : ℕ) (f : Channel → Channel) :
    b.update sid f sid = f (b sid) := by
  simp [Backend.update]

theorem Backend.update_other (b : Backend) (sid i : ℕ) (f : Channel → Channel)
    (h : i ≠ sid) : b.update sid f i = b i := by
  simp [Backend.update, h]

/-- The state of channel `i` after the bind-position-gain-play sequence that
both `queue_looping_sound` and the scheduler loop issue on channel `s`. -/
theorem state_after_bind_play (b : Backend) (s buf : ℕ) (p : Vec3) (g : ℚ) (i : ℕ) :
    (play_source (set_source_gain (set_source_position
        (set_source_buffer b s buf) s p) s g) s i).state
      = if i = s then .playing else (b i).state := by
  by_cases h : i = s <;>
    simp [play_source, set_source_gain, set_source_position, set_source_buffer,
      Backend.update, h]

/-- The whole channel record of `s` after the bind-position-gain-play
sequence on `s`. -/
theorem channel_after_bind_play (b : Backend) (s buf : ℕ) (p : Vec3) (g : ℚ) :
    play_source (set_source_gain (set_source_position
        (set_source_buffer b s buf) s p) s g) s s
      = { state := .playing, buffer := buf, position := p, gain := g,
          looping := (b s).looping } := by
  simp [play_source, set_source_gain, set_source_position, set_source_buffer,
    Backend.update]

/-! ### Helper lemmas about `get_available_source_id` -/

/-- A nonzero result of the pool scan is a pool source that is not playing. -/
theorem get_available_spec (b : Backend) (srcs : List ℕ)
    (h : get_available_source_id b srcs ≠ 0) :
    get_available_source_id b srcs ∈ srcs ∧
      get_source_state b (get_available_source_id b srcs) ≠ .playing := by
  induction srcs with
  | nil => exact absurd rfl h
  | cons s rest ih =>
      by_cases hs : get_source_state b s ≠ ChannelState.playing
      · simp only [get_available_source_id, if_pos hs] at h ⊢
        exact ⟨List.mem_cons_self s rest, hs⟩
      · simp only [get_available_source_id, if_neg hs] at h ⊢
        rcases ih h with ⟨h1, h2⟩
        exact ⟨List.mem_cons_of_mem s h1, h2⟩

/-- When every pool source is playing, the scan comes back empty-handed. -/
theorem get_available_eq_zero_of_all_playing (b : Backend) (srcs : List ℕ)
    (h : ∀ s ∈ srcs, get_source_state b s = .playing) :
    get_available_source_id b srcs = 0 := by
  induction srcs with
  | nil => rfl
  | cons s rest ih =>
      have hs : get_source_state b s = ChannelState.playing := h s (List.mem_cons_self s rest)
      simp only [get_available_source_id, hs, ne_eq, not_true_eq_false, if_false]
      exact ih fun t ht => h t (List.mem_cons_of_mem s ht)

/-- The scan returns the first non-playing source. -/
theorem get_available_first (b : Backend) (l₁ : List ℕ) (s : ℕ) (l₂ : List ℕ)
    (h1 : ∀ t ∈ l₁, get_source_state b t = .playing)
    (hs : get_source_state b s ≠ .playing) :
    get_available_source_id b (l₁ ++ s :: l₂) = s := by
  induction l₁ with
  | nil => simp only [List.nil_append, get_available_source_id, if_pos hs]
  | cons t rest ih =>
      have ht : get_source_state b t = ChannelState.playing := h1 t (List.mem_cons_self t rest)
      simp only [List.cons_append, get_available_source_id, ht, ne_eq,
        not_true_eq_false, if_false]
      exact ih fun u hu => h1 u (List.mem_cons_of_mem t hu)

/-- The scan depends only on the playback states of the pool sources. -/
theorem get_available_congr (b b' : Backend) (srcs : List ℕ)
    (h : ∀ s ∈ srcs, get_source_state b' s = get_source_state b s) :
    get_available_source_id b' srcs = get_available_source_id b srcs := by
  induction srcs with
  | nil => rfl
  | cons s rest ih =>
      have hs := h s (List.mem_cons_self s rest)
      by_cases hp : get_source_state b s ≠ ChannelState.playing
      · simp only [get_available_source_id, hs, if_pos hp]
      · simp only [get_available_source_id, hs, if_neg hp]
        exact ih fun t ht => h t (List.mem_cons_of_mem s ht)

/-! ### Helper lemmas about the scheduler loop -/

/-- At most one play command is issued per queue entry. -/
theorem loop_length_le (sources : List ℕ) (q : List QueuedSound) :
    ∀ (b : Backend) (m : List (ℕ × ℕ)),
      (play_all_sounds_loop sources b m q).2.2.length ≤ q.length := by
  induction q with
  | nil => intro b m; simp [play_all_sounds_loop]
  | cons x rest ih =>
      intro b m
      by_cases h : get_available_source_id b sources ≠ 0
      · simp only [play_all_sounds_loop, if_pos h, List.length_cons]
        exact Nat.succ_le_succ (ih _ _)
      · simp only [play_all_sounds_loop, if_neg h, List.length_cons]
        exact Nat.le_succ_of_le (ih _ _)

/-- A channel that is playing stays playing throughout the drain: the loop
only binds buffers, repositions, re-gains and starts channels. -/
theorem loop_playing_mono (sources : List ℕ) (q : List QueuedSound) :
    ∀ (b : Backend) (m : List (ℕ × ℕ)) (c : ℕ),
      get_source_state b c = .playing →
      get_source_state (play_all_sounds_loop sources b m q).1 c = .playing := by
  induction q with
  | nil => intro b m c hc; exact hc
  | cons x rest ih =>
      intro b m c hc
      by_cases h : get_available_source_id b sources ≠ 0
      · simp only [play_all_sounds_loop, if_pos h]
        apply ih
        unfold get_source_state at hc ⊢
        rw [state_after_bind_play]
        split
        · rfl
        · exact hc
      · simp only [play_all_sounds_loop, if_neg h]
        exact ih _ _ _ hc

/-- A channel that is already playing when the drain starts is never the
target of a play command during that drain. -/
theorem loop_playing_not_started (sources : List ℕ) (q : List QueuedSound) :
    ∀ (b : Backend) (m : List (ℕ × ℕ)) (c : ℕ),
      get_source_state b c = .playing →
      c ∉ (play_all_sounds_loop sources b m q).2.2 := by
  induction q with
  | nil => intro b m c _; simp [play_all_sounds_loop]
  | cons x rest ih =>
      intro b m c hc
      by_cases h : get_available_source_id b sources ≠ 0
      · simp only [play_all_sounds_loop, if_pos h, List.mem_cons, not_or]
        constructor
        · intro heq
          exact (get_available_spec b sources h).2 (heq ▸ hc)
        · apply ih
          unfold get_source_state at hc ⊢
          rw [state_after_bind_play]
          split
          · rfl
          · exact hc
      · simp only [play_all_sounds_loop, if_neg h]
        exact ih _ _ _ hc

/-- The play commands of one drain all hit distinct channels. -/
theorem loop_started_nodup (sources : List ℕ) (q : List QueuedSound) :
    ∀ (b : Backend) (m : List (ℕ × ℕ)),
      (play_all_sounds_loop sources b m q).2.2.Nodup := by
  induction q with
  | nil => intro b m; simp [play_all_sounds_loop]
  | cons x rest ih =>
      intro b m
      by_cases h : get_available_source_id b sources ≠ 0
      · simp only [play_all_sounds_loop, if_pos h, List.nodup_cons]
        refine ⟨?_, ih _ _⟩
        apply loop_playing_not_started
        unfold get_source_state
        rw [state_after_bind_play]
        simp
      · simp only [play_all_sounds_loop, if_neg h]
        exact ih _ _

/-- Every channel that receives a play command during a drain is a pool
source. -/
theorem loop_started_subset (sources : List ℕ) (q : List QueuedSound) :
    ∀ (b : Backend) (m : List (ℕ × ℕ)) (c : ℕ),
      c ∈ (play_all_sounds_loop sources b m q).2.2 → c ∈ sources := by
  induction q with
  | nil => intro b m c hc; simp [play_all_sounds_loop] at hc
  | cons x rest ih =>
      intro b m c hc
      by_cases h : get_available_source_id b sources ≠ 0
      · simp only [play_all_sounds_loop, if_pos h, List.mem_cons] at hc
        rcases hc with hc | hc
        · exact hc ▸ (get_available_spec b sources h).1
        · exact ih _ _ _ hc
      · simp only [play_all_sounds_loop, if_neg h] at hc
        exact ih _ _ _ hc

/-- Looking up a registered key default-inserts nothing. -/
theorem getOrInsertZero_of_lookup_eq (m : List (ℕ × ℕ)) (k v : ℕ)
    (h : lookupKey k m = some v) :
    getOrInsertZero m k = (v, m) := by
  unfold getOrInsertZero
  rw [h]

/-- Looking up a registered key default-inserts nothing (isSome form). -/
theorem getOrInsertZero_snd_of_isSome (m : List (ℕ × ℕ)) (k : ℕ)
    (h : (lookupKey k m).isSome) :
    (getOrInsertZero m k).2 = m := by
  rcases Option.isSome_iff_exists.mp h with ⟨v, hv⟩
  rw [getOrInsertZero_of_lookup_eq m k v hv]

/-- A drain whose queued sound types are all registered leaves the type
registry unchanged. -/
theorem loop_map_unchanged (sources : List ℕ) (q : List QueuedSound) :
    ∀ (b : Backend) (m : List (ℕ × ℕ)),
      (∀ x ∈ q, (lookupKey x.type m).isSome) →
      (play_all_sounds_loop sources b m q).2.1 = m := by
  induction q with
  | nil => intro b m _; rfl
  | cons x rest ih =>
      intro b m hall
      have hx : (lookupKey x.type m).isSome := hall x (List.mem_cons_self x rest)
      rcases Option.isSome_iff_exists.mp hx with ⟨v, hv⟩
      by_cases h : get_available_source_id b sources ≠ 0
      · simp only [play_all_sounds_loop, if_pos h,
          getOrInsertZero_of_lookup_eq m x.type v hv]
        exact ih _ _ fun y hy => hall y (List.mem_cons_of_mem x hy)
      · simp only [play_all_sounds_loop, if_neg h]
        exact ih _ _ fun y hy => hall y (List.mem_cons_of_mem x hy)

/-- Explicit drain of a two-entry queue over a single-source pool whose
source is free: the first request is bound and started, the second is
dropped. -/
theorem loop_single_source (b : Backend) (m : List (ℕ × ℕ)) (s : ℕ)
    (hs : s ≠ 0) (hst : get_source_state b s ≠ .playing) (q1 q2 : QueuedSound) :
    play_all_sounds_loop [s] b m [q1, q2] =
      (play_source (set_source_gain (set_source_position
          (set_source_buffer b s (getOrInsertZero m q1.type).1) s q1.position)
          s q1.gain) s,
        (getOrInsertZero m q1.type).2, [s]) := by
  have h1 : get_available_source_id b [s] = s := by
    simp only [get_available_source_id, if_pos hst]
  have h2 : get_source_state (play_source (set_source_gain (set_source_position
      (set_source_buffer b s (getOrInsertZero m q1.type).1) s q1.position)
      s q1.gain) s) s = ChannelState.playing := by
    unfold get_source_state
    rw [state_after_bind_play]
    simp
  have h3 : get_available_source_id (play_source (set_source_gain
      (set_source_position (set_source_buffer b s (getOrInsertZero m q1.type).1)
      s q1.position) s q1.gain) s) [s] = 0 := by
    simp only [get_available_source_id, h2, ne_eq, not_true_eq_false, if_false]
  simp only [play_all_sounds_loop, h1, if_pos hs, h3]
  simp [play_all_sounds_loop]

/-- Over a pool that respects the zero-sentinel invariant, the scan returns
0 exactly when every pool source is playing. -/
theorem get_available_eq_zero_iff (b : Backend) (srcs : List ℕ)
    (h0 : (0 : ℕ) ∉ srcs) :
    get_available_source_id b srcs = 0 ↔
      ∀ s ∈ srcs, get_source_state b s = .playing := by
  induction srcs with
  | nil => simp [get_available_source_id]
  | cons s rest ih =>
      have hs0 : s ≠ 0 := fun h => h0 (h ▸ List.mem_cons_self s rest)
      have h0r : (0 : ℕ) ∉ rest := fun h => h0 (List.mem_cons_of_mem s h)
      by_cases hp : get_source_state b s ≠ ChannelState.playing
      · simp only [get_available_source_id, if_pos hp]
        constructor
        · intro h; exact absurd h hs0
        · intro hall; exact absurd (hall s (List.mem_cons_self s rest)) hp
      · push_neg at hp
        have hcond : ¬ (get_source_state b s ≠ ChannelState.playing) := by simp [hp]
        simp only [get_available_source_id, if_neg hcond]
        rw [ih h0r]
        constructor
        · intro hall t ht
          rcases List.mem_cons.mp ht with rfl | ht2
          · exact hp
          · exact hall t ht2
        · intro hall t ht
          exact hall t (List.mem_cons_of_mem s ht)

/-- With all pool sources busy, `queue_looping_sound` takes its bail-out
branch untouched. -/
theorem queue_looping_sound_saturated (sys : SoundSystem) (type : ℕ) (p : Vec3)
    (g : ℚ) (h : ∀ s ∈ sys.sound_sources, get_source_state sys.backend s = .playing) :
    sys.queue_looping_sound type p g = (999, sys) := by
  have hz := get_available_eq_zero_of_all_playing sys.backend sys.sound_sources h
  simp [SoundSystem.queue_looping_sound, hz]

/-! ### Claim theorems -/

/-- C3: `get_available_source_id` returns the zero sentinel exactly when
every pool source is playing (given the invariant that 0 is never a real
source handle); it scans in creation order and returns the first source that
is not playing; and it depends only on the sources' playback states, so,
given identical channel playing/idle states, repeated calls return the same
channel. -/
theorem C3_get_available_source_first_free (b : Backend) (srcs : List ℕ)
    (h0 : (0 : ℕ) ∉ srcs) :
    (get_available_source_id b srcs = 0 ↔
        ∀ s ∈ srcs, get_source_state b s = .playing) ∧
    (∀ (l₁ : List ℕ) (s : ℕ) (l₂ : List ℕ), srcs = l₁ ++ s :: l₂ →
        (∀ t ∈ l₁, get_source_state b t = .playing) →
        get_source_state b s ≠ .playing →
        get_available_source_id b srcs = s) ∧
    (∀ b2 : Backend, (∀ s ∈ srcs, get_source_state b2 s = get_source_state b s) →
        get_available_source_id b2 srcs = get_available_source_id b srcs) := by
  refine ⟨get_available_eq_zero_iff b srcs h0, ?_, ?_⟩
  · intro l₁ s l₂ heq h1 hs
    subst heq
    exact get_available_first b l₁ s l₂ h1 hs
  · intro b2 h
    exact get_available_congr b b2 srcs h

/-- C3 witness: the theorem applied to a concrete two-source pool in which
the first source is playing and the second is idle. -/
theorem C3_get_available_source_first_free_witness :
    (0 : ℕ) ∉ [1, 2] ∧
    (get_available_source_id (fun i => if i = 1
        then { freshChannel with state := .playing } else freshChannel) [1, 2] = 0 ↔
      ∀ s ∈ [1, 2], get_source_state (fun i => if i = 1
        then { freshChannel with state := .playing } else freshChannel) s = .playing) :=
  ⟨by decide,
    (C3_get_available_source_first_free (fun i => if i = 1
      then { freshChannel with state := .playing } else freshChannel) [1, 2] (by decide)).1⟩

/-- C2 counterexample: with the single pool source playing, the handle
`queue_looping_sound` returns is the literal 999, not the reserved zero/null
sentinel the claim states. -/
theorem C2_counterexample_sentinel_not_zero :
    (sysAllPlaying.queue_looping_sound 5 ⟨0, 0, 0⟩ 1).1 = 999 ∧
    (sysAllPlaying.queue_looping_sound 5 ⟨0, 0, 0⟩ 1).1 ≠ 0 := by
  constructor
  · rfl
  · decide

/-- C2 (amended): when every pool source is playing, `queue_looping_sound`
returns the constant 999 as its no-channel value and performs no mutation at
all — the system, including the whole backend store, is returned exactly as
it was. -/
theorem C2_queue_looping_sound_saturated (sys : SoundSystem) (type : ℕ)
    (p : Vec3) (g : ℚ)
    (h : ∀ s ∈ sys.sound_sources, get_source_state sys.backend s = .playing) :
    sys.queue_looping_sound type p g = (999, sys) :=
  queue_looping_sound_saturated sys type p g h

/-- C2 witness: the amended theorem applied to the concrete saturated
system. -/
theorem C2_queue_looping_sound_saturated_witness :
    (∀ s ∈ sysAllPlaying.sound_sources,
        get_source_state sysAllPlaying.backend s = .playing) ∧
    sysAllPlaying.queue_looping_sound 5 ⟨0, 0, 0⟩ 1 = (999, sysAllPlaying) :=
  ⟨by decide, C2_queue_looping_sound_saturated sysAllPlaying 5 ⟨0, 0, 0⟩ 1 (by decide)⟩

/-- C4: `stop_looping_sound` clears the loop flag, stops the channel if and
only if its backend state was `Playing` or `Paused` (otherwise the state is
left as it was, with only a diagnostic printed), always detaches the bound
buffer, and in every case leaves the channel non-playing, hence reclaimable
by the pool scanner. -/
theorem C4_stop_looping_sound_contract (sys : SoundSystem) (source_id : ℕ) :
    ((sys.stop_looping_sound source_id).backend source_id).looping = false ∧
    ((sys.stop_looping_sound source_id).backend source_id).buffer = 0 ∧
    ((sys.stop_looping_sound source_id).backend source_id).state =
      (if (sys.backend source_id).state = .playing ∨
          (sys.backend source_id).state = .paused
       then .stopped else (sys.backend source_id).state) ∧
    ((sys.stop_looping_sound source_id).backend source_id).state ≠ .playing := by
  by_cases h : (sys.backend source_id).state = ChannelState.playing ∨
      (sys.backend source_id).state = ChannelState.paused
  · simp [SoundSystem.stop_looping_sound, get_source_state, set_source_looping,
      stop_source, detach_source_buffer, Backend.update, h]
  · have h2 := h
    push_neg at h2
    simp [SoundSystem.stop_looping_sound, get_source_state, set_source_looping,
      stop_source, detach_source_buffer, Backend.update, h2.1, h2.2]

/-- C10: `stop_looping_sound` performs no validation of its handle argument:
for every handle value whatsoever (a pool member or not, including the 999
returned by a saturated `queue_looping_sound`) it returns normally, touching
nothing but the backend record of that very handle, on which it clears the
loop flag and detaches the buffer. -/
theorem C10_stop_looping_sound_unvalidated (sys : SoundSystem) (source_id : ℕ) :
    (sys.stop_looping_sound source_id).sound_name_to_loaded_buffer_id =
      sys.sound_name_to_loaded_buffer_id ∧
    (sys.stop_looping_sound source_id).source_name_to_source_id =
      sys.source_name_to_source_id ∧
    (sys.stop_looping_sound source_id).sound_sources = sys.sound_sources ∧
    (sys.stop_looping_sound source_id).sound_type_to_buffer_id =
      sys.sound_type_to_buffer_id ∧
    (sys.stop_looping_sound source_id).sound_to_play_queue =
      sys.sound_to_play_queue ∧
    (∀ i : ℕ, i ≠ source_id →
      (sys.stop_looping_sound source_id).backend i = sys.backend i) ∧
    ((sys.stop_looping_sound source_id).backend source_id).looping = false ∧
    ((sys.stop_looping_sound source_id).backend source_id).buffer = 0 := by
  refine ⟨rfl, rfl, rfl, rfl, rfl, ?_, ?_, ?_⟩
  · intro i hi
    simp only [SoundSystem.stop_looping_sound, detach_source_buffer, Backend.update]
    rw [if_neg hi, ite_apply]
    simp [stop_source, set_source_looping, Backend.update, hi]
  · exact (C4_stop_looping_sound_contract sys source_id).1
  · exact (C4_stop_looping_sound_contract sys source_id).2.1

/-- C6: registering a sound name that is already registered fails with
`DuplicateIdentifier`, and the whole system state — registries, pool, queue
and backend — is returned exactly as it was before the call. -/
theorem C6_duplicate_identifier_rejected (sys : SoundSystem) (decoder : String → ℕ)
    (sound_name filename : String)
    (h : (lookupKey sound_name sys.sound_name_to_loaded_buffer_id).isSome) :
    sys.load_sound_into_system_for_playback decoder sound_name filename =
      (sys, some .duplicateIdentifier) := by
  simp only [SoundSystem.load_sound_into_system_for_playback, if_pos h]

/-- C6 witness: loading the already-registered name in the concrete named
system fails with `DuplicateIdentifier` and changes nothing. -/
theorem C6_duplicate_identifier_rejected_witness :
    (lookupKey "soundA" sysNamed.sound_name_to_loaded_buffer_id).isSome ∧
    sysNamed.load_sound_into_system_for_playback (fun _ => 7) "soundA" "a.wav" =
      (sysNamed, some .duplicateIdentifier) :=
  ⟨by decide,
    C6_duplicate_identifier_rejected sysNamed (fun _ => 7) "soundA" "a.wav" (by decide)⟩

/-- C5 counterexample: on a system with a free pool source, a
`queue_looping_sound` with gain 2 at position (1,2,3) followed immediately
by `stop_looping_sound` on the returned handle leaves the channel with gain
2 at position (1,2,3) — distinguishable from a freshly created channel,
whose gain is 1 at the origin. -/
theorem C5_counterexample_not_fresh :
    ((sysLoop.queue_looping_sound 5 ⟨1, 2, 3⟩ 2).2.stop_looping_sound
        (sysLoop.queue_looping_sound 5 ⟨1, 2, 3⟩ 2).1).backend
      (sysLoop.queue_looping_sound 5 ⟨1, 2, 3⟩ 2).1 ≠ freshChannel ∧
    (((sysLoop.queue_looping_sound 5 ⟨1, 2, 3⟩ 2).2.stop_looping_sound
        (sysLoop.queue_looping_sound 5 ⟨1, 2, 3⟩ 2).1).backend
      (sysLoop.queue_looping_sound 5 ⟨1, 2, 3⟩ 2).1).gain ≠ freshChannel.gain := by
  decide

/-- C5 (amended): when a free pool channel exists, `queue_looping_sound`
followed immediately by `stop_looping_sound` on the returned handle leaves
that channel `Stopped` (hence idle and reclaimable), buffer-detached and
with the loop flag cleared — but with the gain and position set by the
queue call, so not indistinguishable from a freshly created channel. -/
theorem C5_queue_then_stop_channel (sys : SoundSystem) (type : ℕ) (p : Vec3) (g : ℚ)
    (h : get_available_source_id sys.backend sys.sound_sources ≠ 0) :
    ((sys.queue_looping_sound type p g).2.stop_looping_sound
        (sys.queue_looping_sound type p g).1).backend
      (sys.queue_looping_sound type p g).1 =
    { state := .stopped, buffer := 0, position := p, gain := g, looping := false } := by
  simp [SoundSystem.queue_looping_sound, if_pos h, SoundSystem.stop_looping_sound,
    get_source_state, set_source_looping, set_source_buffer, set_source_position,
    set_source_gain, play_source, stop_source, detach_source_buffer, Backend.update]

/-- C5 witness: the amended theorem applied to the concrete one-free-source
system. -/
theorem C5_queue_then_stop_channel_witness :
    get_available_source_id sysLoop.backend sysLoop.sound_sources ≠ 0 ∧
    ((sysLoop.queue_looping_sound 5 ⟨1, 2, 3⟩ 2).2.stop_looping_sound
        (sysLoop.queue_looping_sound 5 ⟨1, 2, 3⟩ 2).1).backend
      (sysLoop.queue_looping_sound 5 ⟨1, 2, 3⟩ 2).1 =
    { state := .stopped, buffer := 0, position := ⟨1, 2, 3⟩, gain := 2,
      looping := false } :=
  ⟨by decide, C5_queue_then_stop_channel sysLoop 5 ⟨1, 2, 3⟩ 2 (by decide)⟩

/-- C7 counterexample: the out-of-range gain 2 supplied to the pool path
`queue_sound` is neither rejected nor clamped — it is enqueued verbatim and
applied verbatim to the backend channel by the following
`play_all_sounds`. -/
theorem C7_counterexample_pool_gain_unchecked :
    (sysLoop.queue_sound 5 ⟨0, 0, 0⟩ 2).sound_to_play_queue =
      [⟨5, ⟨0, 0, 0⟩, 2⟩] ∧
    ¬ ((2 : ℚ) ≤ 1) ∧
    (((sysLoop.queue_sound 5 ⟨0, 0, 0⟩ 2).play_all_sounds).1.backend 1).gain = 2 := by
  refine ⟨by decide, by norm_num, by decide⟩

/-- C7 (amended): gain values outside [0,1] are rejected (by the assertion)
on the named-source path only; the pool channel paths perform no validation:
`queue_sound` enqueues the supplied gain verbatim and `queue_looping_sound`
applies it verbatim to the acquired channel. -/
theorem C7_gain_validation_named_only :
    (∀ (sys : SoundSystem) (name : String) (g : ℚ), ¬ (0 ≤ g ∧ g ≤ 1) →
        sys.set_source_gain_by_name name g = (sys, some .gainOutOfRange)) ∧
    (∀ (sys : SoundSystem) (t : ℕ) (p : Vec3) (g : ℚ),
        (sys.queue_sound t p g).sound_to_play_queue =
          sys.sound_to_play_queue ++ [⟨t, p, g⟩]) ∧
    (∀ (sys : SoundSystem) (t : ℕ) (p : Vec3) (g : ℚ),
        get_available_source_id sys.backend sys.sound_sources ≠ 0 →
        ((sys.queue_looping_sound t p g).2.backend
            (sys.queue_looping_sound t p g).1).gain = g) := by
  refine ⟨?_, ?_, ?_⟩
  · intro sys name g hg
    simp only [SoundSystem.set_source_gain_by_name, if_pos hg]
  · intro sys t p g
    rfl
  · intro sys t p g h
    simp [SoundSystem.queue_looping_sound, if_pos h, get_source_state,
      set_source_looping, set_source_buffer, set_source_position, set_source_gain,
      play_source, Backend.update]

/-- C7 witness: the amended theorem applied at the concrete out-of-range
gain 2 on the named path and on both pool paths. -/
theorem C7_gain_validation_named_only_witness :
    (¬ ((0 : ℚ) ≤ 2 ∧ (2 : ℚ) ≤ 1)) ∧
    sysNamed.set_source_gain_by_name "s1" 2 = (sysNamed, some .gainOutOfRange) ∧
    (sysLoop.queue_sound 5 ⟨0, 0, 0⟩ 2).sound_to_play_queue =
      sysLoop.sound_to_play_queue ++ [⟨5, ⟨0, 0, 0⟩, 2⟩] ∧
    get_available_source_id sysLoop.backend sysLoop.sound_sources ≠ 0 ∧
    ((sysLoop.queue_looping_sound 5 ⟨0, 0, 0⟩ 2).2.backend
        (sysLoop.queue_looping_sound 5 ⟨0, 0, 0⟩ 2).1).gain = 2 :=
  ⟨by norm_num,
    C7_gain_validation_named_only.1 sysNamed "s1" 2 (by norm_num),
    C7_gain_validation_named_only.2.1 sysLoop 5 ⟨0, 0, 0⟩ 2,
    by decide,
    C7_gain_validation_named_only.2.2 sysLoop 5 ⟨0, 0, 0⟩ 2 (by decide)⟩

/-- With both names registered and a nonzero buffer, `play_sound` stops the
source if it is playing, rebinds the buffer and starts playback, returning
no error. -/
theorem play_sound_success (sys : SoundSystem) (src snd : String) (sid buf : ℕ)
    (hsnd : lookupKey snd sys.sound_name_to_loaded_buffer_id = some buf)
    (hsrc : lookupKey src sys.source_name_to_source_id = some sid)
    (hbuf : buf ≠ 0) :
    sys.play_sound src snd =
      ({ sys with backend := play_source (set_source_buffer
          (if get_source_state sys.backend sid = .playing
           then stop_source sys.backend sid else sys.backend) sid buf) sid }, none) := by
  simp only [SoundSystem.play_sound, hsnd, hsrc]
  rw [if_neg hbuf]

/-- C8: `play_sound` fails with `UnknownSound` when the sound name is
unregistered and with `UnknownSource` when the source name is unregistered
(both without touching any state); when both are registered (with a nonzero
buffer) it stops any playing content before rebinding, so calling it twice
in a row on the same named source raises no error and leaves the channel
`Playing`, bound to the requested sound's buffer. -/
theorem C8_play_sound_contract :
    (∀ (sys : SoundSystem) (src snd : String),
        lookupKey snd sys.sound_name_to_loaded_buffer_id = none →
        sys.play_sound src snd = (sys, some .unknownSound)) ∧
    (∀ (sys : SoundSystem) (src snd : String) (buf : ℕ),
        lookupKey snd sys.sound_name_to_loaded_buffer_id = some buf →
        lookupKey src sys.source_name_to_source_id = none →
        sys.play_sound src snd = (sys, some .unknownSource)) ∧
    (∀ (sys : SoundSystem) (src snd : String) (sid buf : ℕ),
        lookupKey snd sys.sound_name_to_loaded_buffer_id = some buf →
        lookupKey src sys.source_name_to_source_id = some sid →
        buf ≠ 0 →
        (sys.play_sound src snd).2 = none ∧
        ((sys.play_sound src snd).1.play_sound src snd).2 = none ∧
        get_source_state ((sys.play_sound src snd).1.play_sound src snd).1.backend sid
          = .playing ∧
        (((sys.play_sound src snd).1.play_sound src snd).1.backend sid).buffer = buf) := by
  refine ⟨?_, ?_, ?_⟩
  · intro sys src snd h
    simp only [SoundSystem.play_sound, h]
  · intro sys src snd buf hsnd hsrc
    simp only [SoundSystem.play_sound, hsnd, hsrc]
  · intro sys src snd sid buf hsnd hsrc hbuf
    have h1 := play_sound_success sys src snd sid buf hsnd hsrc hbuf
    have h2 := play_sound_success
      ({ sys with backend := play_source (set_source_buffer
          (if get_source_state sys.backend sid = .playing
           then stop_source sys.backend sid else sys.backend) sid buf) sid })
      src snd sid buf hsnd hsrc hbuf
    rw [h1]
    dsimp only
    rw [h2]
    refine ⟨rfl, rfl, ?_, ?_⟩ <;>
      simp [get_source_state, play_source, set_source_buffer, stop_source,
        Backend.update]

/-- C8 witness: the three parts of the theorem applied to the concrete named
system — unknown sound, unknown source, and the play-twice scenario on
source "s1" with sound "soundA". -/
theorem C8_play_sound_contract_witness :
    (lookupKey "nosound" sysNamed.sound_name_to_loaded_buffer_id = none ∧
      sysNamed.play_sound "s1" "nosound" = (sysNamed, some .unknownSound)) ∧
    (lookupKey "s2" sysNamed.source_name_to_source_id = none ∧
      sysNamed.play_sound "s2" "soundA" = (sysNamed, some .unknownSource)) ∧
    (lookupKey "soundA" sysNamed.sound_name_to_loaded_buffer_id = some 3 ∧
      lookupKey "s1" sysNamed.source_name_to_source_id = some 1 ∧ (3 : ℕ) ≠ 0 ∧
      ((sysNamed.play_sound "s1" "soundA").2 = none ∧
       ((sysNamed.play_sound "s1" "soundA").1.play_sound "s1" "soundA").2 = none ∧
       get_source_state
         ((sysNamed.play_sound "s1" "soundA").1.play_sound "s1" "soundA").1.backend 1
         = .playing ∧
       (((sysNamed.play_sound "s1" "soundA").1.play_sound "s1" "soundA").1.backend
         1).buffer = 3)) :=
  ⟨⟨by decide, C8_play_sound_contract.1 sysNamed "s1" "nosound" (by decide)⟩,
   ⟨by decide, C8_play_sound_contract.2.1 sysNamed "s2" "soundA" 3 (by decide) (by decide)⟩,
   by decide, by decide, by decide,
   C8_play_sound_contract.2.2 sysNamed "s1" "soundA" 1 3 (by decide) (by decide)
     (by decide)⟩

/-- C9 counterexample: `queue_looping_sound` called with the unregistered
sound type 6 default-inserts the entry (6, 0) into the type-to-buffer
registry — the registry is not read-only for unregistered types. -/
theorem C9_counterexample_registry_mutated :
    (sysLoop.queue_looping_sound 6 ⟨0, 0, 0⟩ 1).2.sound_type_to_buffer_id ≠
      sysLoop.sound_type_to_buffer_id := by
  decide

/-- C9 (amended): `queue_sound` and `stop_looping_sound` never touch the
type-to-buffer registry; `queue_looping_sound` and `play_all_sounds` leave
it unchanged whenever the sound types they bind are registered; but binding
an unregistered type default-inserts an entry mapping that type to the zero
buffer (C++ `operator[]`), which is the only possible mutation. -/
theorem C9_registry_readonly_for_registered :
    (∀ (sys : SoundSystem) (t : ℕ) (p : Vec3) (g : ℚ),
        (sys.queue_sound t p g).sound_type_to_buffer_id =
          sys.sound_type_to_buffer_id) ∧
    (∀ (sys : SoundSystem) (sid : ℕ),
        (sys.stop_looping_sound sid).sound_type_to_buffer_id =
          sys.sound_type_to_buffer_id) ∧
    (∀ (sys : SoundSystem) (t : ℕ) (p : Vec3) (g : ℚ),
        (lookupKey t sys.sound_type_to_buffer_id).isSome →
        (sys.queue_looping_sound t p g).2.sound_type_to_buffer_id =
          sys.sound_type_to_buffer_id) ∧
    (∀ sys : SoundSystem,
        (∀ x ∈ sys.sound_to_play_queue,
            (lookupKey x.type sys.sound_type_to_buffer_id).isSome) →
        (sys.play_all_sounds).1.sound_type_to_buffer_id =
          sys.sound_type_to_buffer_id) ∧
    (∀ (sys : SoundSystem) (t : ℕ) (p : Vec3) (g : ℚ),
        (sys.queue_looping_sound t p g).2.sound_type_to_buffer_id =
            sys.sound_type_to_buffer_id ∨
        (sys.queue_looping_sound t p g).2.sound_type_to_buffer_id =
            sys.sound_type_to_buffer_id ++ [(t, 0)]) := by
  refine ⟨fun sys t p g => rfl, fun sys sid => rfl, ?_, ?_, ?_⟩
  · intro sys t p g h
    unfold SoundSystem.queue_looping_sound
    by_cases hz : get_available_source_id sys.backend sys.sound_sources ≠ 0
    · simp only [if_pos hz]
      exact getOrInsertZero_snd_of_isSome _ _ h
    · simp only [if_neg hz]
  · intro sys h
    exact loop_map_unchanged _ _ _ _ h
  · intro sys t p g
    unfold SoundSystem.queue_looping_sound
    by_cases hz : get_available_source_id sys.backend sys.sound_sources ≠ 0
    · simp only [if_pos hz]
      unfold getOrInsertZero
      cases hm : lookupKey t sys.sound_type_to_buffer_id with
      | some v => exact Or.inl (by simp [hm])
      | none => exact Or.inr (by simp [hm])
    · exact Or.inl (by simp only [if_neg hz])

/-- C9 witness: the amended theorem applied to the concrete systems — the
registered type 5 leaves the registry of `sysLoop` unchanged, and draining
`sysPool1`, whose queued types 5 and 6 are both registered, leaves its
registry unchanged. -/
theorem C9_registry_readonly_for_registered_witness :
    ((lookupKey 5 sysLoop.sound_type_to_buffer_id).isSome ∧
      (sysLoop.queue_looping_sound 5 ⟨0, 0, 0⟩ 1).2.sound_type_to_buffer_id =
        sysLoop.sound_type_to_buffer_id) ∧
    ((∀ x ∈ sysPool1.sound_to_play_queue,
        (lookupKey x.type sysPool1.sound_type_to_buffer_id).isSome) ∧
      (sysPool1.play_all_sounds).1.sound_type_to_buffer_id =
        sysPool1.sound_type_to_buffer_id) :=
  ⟨⟨by decide,
      C9_registry_readonly_for_registered.2.2.1 sysLoop 5 ⟨0, 0, 0⟩ 1 (by decide)⟩,
   ⟨by decide,
      C9_registry_readonly_for_registered.2.2.2.1 sysPool1 (by decide)⟩⟩

/-- C1: one `play_all_sounds` call starts at most `min(N, K)` sounds, where
N is the pool size and K the number of queued requests, and always leaves
the playback queue empty; in particular with pool size 1 and two queued
requests, exactly the first request is started (on the single pool source,
with its buffer, position and gain) and the second is discarded with a
diagnostic. -/
theorem C1_play_all_sounds_min_start (sys : SoundSystem) :
    (sys.play_all_sounds).2.length ≤
        min sys.sound_sources.length sys.sound_to_play_queue.length ∧
    (sys.play_all_sounds).1.sound_to_play_queue = [] ∧
    (∀ (s : ℕ) (q1 q2 : QueuedSound),
        sys.sound_sources = [s] → s ≠ 0 →
        get_source_state sys.backend s ≠ .playing →
        sys.sound_to_play_queue = [q1, q2] →
        (sys.play_all_sounds).2 = [s] ∧
        get_source_state (sys.play_all_sounds).1.backend s = .playing ∧
        ((sys.play_all_sounds).1.backend s).buffer =
          (getOrInsertZero sys.sound_type_to_buffer_id q1.type).1 ∧
        ((sys.play_all_sounds).1.backend s).position = q1.position ∧
        ((sys.play_all_sounds).1.backend s).gain = q1.gain) := by
  refine ⟨?_, rfl, ?_⟩
  · apply le_min
    · exact (List.subperm_of_subset
        (loop_started_nodup sys.sound_sources sys.sound_to_play_queue
          sys.backend sys.sound_type_to_buffer_id)
        (fun c hc => loop_started_subset sys.sound_sources sys.sound_to_play_queue
          sys.backend sys.sound_type_to_buffer_id c hc)).length_le
    · exact loop_length_le sys.sound_sources sys.sound_to_play_queue
        sys.backend sys.sound_type_to_buffer_id
  · intro s q1 q2 hsrc hs hst hq
    have hloop := loop_single_source sys.backend sys.sound_type_to_buffer_id
      s hs hst q1 q2
    simp only [SoundSystem.play_all_sounds, hsrc, hq, hloop]
    refine ⟨by trivial, ?_, ?_, ?_, ?_⟩ <;>
      simp [get_source_state, channel_after_bind_play]

/-- C1 witness: the scenario part of the theorem applied to the concrete
pool-size-1 system with two distinct queued requests. -/
theorem C1_play_all_sounds_min_start_witness :
    sysPool1.sound_sources = [1] ∧ (1 : ℕ) ≠ 0 ∧
    get_source_state sysPool1.backend 1 ≠ .playing ∧
    sysPool1.sound_to_play_queue = [⟨5, ⟨1, 0, 0⟩, 1⟩, ⟨6, ⟨0, 1, 0⟩, 1⟩] ∧
    ((sysPool1.play_all_sounds).2 = [1] ∧
      get_source_state (sysPool1.play_all_sounds).1.backend 1 = .playing ∧
      ((sysPool1.play_all_sounds).1.backend 1).buffer =
        (getOrInsertZero sysPool1.sound_type_to_buffer_id 5).1 ∧
      ((sysPool1.play_all_sounds).1.backend 1).position = ⟨1, 0, 0⟩ ∧
      ((sysPool1.play_all_sounds).1.backend 1).gain = 1) :=
  ⟨rfl, by decide, by decide, rfl,
    (C1_play_all_sounds_min_start sysPool1).2.2 1 ⟨5, ⟨1, 0, 0⟩, 1⟩
      ⟨6, ⟨0, 1, 0⟩, 1⟩ rfl (by decide) (by decide) rfl⟩

/-- C4 witness: the theorem applied to the concrete system whose source 1 is
playing — the channel ends stopped, unbound, with the loop flag cleared. -/
theorem C4_stop_looping_sound_contract_witness :
    ((sysAllPlaying.stop_looping_sound 1).backend 1).looping = false ∧
    ((sysAllPlaying.stop_looping_sound 1).backend 1).buffer = 0 ∧
    ((sysAllPlaying.stop_looping_sound 1).backend 1).state =
      (if (sysAllPlaying.backend 1).state = .playing ∨
          (sysAllPlaying.backend 1).state = .paused
       then .stopped else (sysAllPlaying.backend 1).state) ∧
    ((sysAllPlaying.stop_looping_sound 1).backend 1).state ≠ .playing :=
  C4_stop_looping_sound_contract sysAllPlaying 1

/-- C10 witness: the theorem applied at the out-of-pool handle 999 (the very
value a saturated `queue_looping_sound` returns) on the concrete one-source
system. -/
theorem C10_stop_looping_sound_unvalidated_witness :
    ((2 : ℕ) ≠ 999) ∧
    (sysLoop.stop_looping_sound 999).backend 2 = sysLoop.backend 2 ∧
    ((sysLoop.stop_looping_sound 999).backend 999).looping = false ∧
    ((sysLoop.stop_looping_sound 999).backend 999).buffer = 0 :=
  ⟨by decide,
    (C10_stop_looping_sound_unvalidated sysLoop 999).2.2.2.2.2.1 2 (by decide),
    (C10_stop_looping_sound_unvalidated sysLoop 999).2.2.2.2.2.2.1,
    (C10_stop_looping_sound_unvalidated sysLoop 999).2.2.2.2.2.2.2⟩
